import Mathlib

/-!
Verification development for the Protocol_Zero repository.

The Python sources are shallowly embedded as Lean definitions:

* `database_manager.py` — `DatabaseManager` methods become pure functions over
  an explicit `DBState` (the `interactions` and `users` tables as lists of
  rows).  SQL timestamps (`datetime.now().strftime("%Y-%m-%d %H:%M:%S")`) are
  modelled by the `Timestamp` structure; the ambient clock becomes an explicit
  `now` argument.  `SELECT ... WHERE discord_id = ?` becomes `List.find?`,
  `UPDATE ... WHERE discord_id = ?` becomes a guarded `List.map`, and
  `INSERT` becomes a list append.
* `bot.py` — the `update_streak` helper and the database portions of the
  `!oracle` (failure) and `!resist` (success) command handlers.  The
  try/except placement of the source is modelled by an explicit `Storage`
  behaviour flag together with `Except`-valued variants of each operation:
  an operation whose source has no try/except propagates `Except.error`,
  an operation that catches converts the failure to a logged message.
* `api.py` / `oracle.py` — the `POST /summon` endpoint body: one
  `random.choice` over the literal punishment list (the random roll is an
  explicit argument), an optional AI roast with canned fallback, and the
  returned `{verdict, roast}` pair.
-/

/-- A parsed "%Y-%m-%d %H:%M:%S" timestamp as written by `datetime.now()`.
Only the hour field is ever inspected by the queries under verification
(`strftime('%H', timestamp)` / `TO_CHAR(..., 'HH24')`). -/
structure Timestamp where
  date : String
  hour : Nat
  rest : String
deriving DecidableEq, Repr

/-- One row of the `interactions` table (the append-only event log). -/
structure InteractionRow where
  user_id : String
  user_name : String
  verdict : String
  timestamp : Timestamp
deriving DecidableEq, Repr

/-- One row of the `users` table (the per-subject ledger). -/
structure UserRow where
  discord_id : String
  username : String
  xp : Nat
  level : Nat
  streak : Nat
  last_active : Timestamp
deriving DecidableEq, Repr

/-- The database contents: both tables, rows in insertion order. -/
structure DBState where
  interactions : List InteractionRow
  users : List UserRow
deriving DecidableEq, Repr

/-- `SELECT ... FROM users WHERE discord_id = ?` followed by `fetchone()`. -/
def findUser (users : List UserRow) (uid : String) : Option UserRow :=
  users.find? (fun r => r.discord_id == uid)

/-- `DatabaseManager.log_interaction`: inserts one row into `interactions`
with the current timestamp. -/
def log_interaction (st : DBState) (user_id user_name verdict : String)
    (now : Timestamp) : DBState :=
  { st with interactions := st.interactions ++ [⟨user_id, user_name, verdict, now⟩] }

/-- `DatabaseManager.update_xp`: upsert.  If the user is absent, insert with
`xp = xp_amount, level = 1, streak = 0` and return `(1, xp_amount)`.  If
present, add the XP, raise the level by one when `current_xp >= level * 100`
(a single `if`, not a loop), and update xp, level, `last_active` and
`username` in place.  Returns `(new_level, current_xp)`. -/
def update_xp (st : DBState) (user_id user_name : String) (xp_amount : Nat)
    (now : Timestamp) : DBState × Nat × Nat :=
  match findUser st.users user_id with
  | none =>
      ({ st with users := st.users ++ [⟨user_id, user_name, xp_amount, 1, 0, now⟩] },
       1, xp_amount)
  | some r =>
      let current_xp := r.xp + xp_amount
      let xp_needed := r.level * 100
      let new_level := if xp_needed ≤ current_xp then r.level + 1 else r.level
      ({ st with users := st.users.map (fun u =>
          if u.discord_id == user_id then
            { u with xp := current_xp, level := new_level,
                     last_active := now, username := user_name }
          else u) },
       new_level, current_xp)

/-- The `{"level": .., "xp": .., "streak": ..}` dictionary returned by
`get_user_stats`. -/
structure Stats where
  level : Nat
  xp : Nat
  streak : Nat
deriving DecidableEq, Repr

/-- `DatabaseManager.get_user_stats`: read-only lookup; defaults to
`{level: 1, xp: 0, streak: 0}` when the row is absent. -/
def get_user_stats (st : DBState) (user_id : String) : Stats :=
  match findUser st.users user_id with
  | some r => ⟨r.level, r.xp, r.streak⟩
  | none => ⟨1, 0, 0⟩

/-- One entry of the list returned by `get_leaderboard`. -/
structure LeaderboardEntry where
  username : String
  level : Nat
  xp : Nat
deriving DecidableEq, Repr

/-- The `ORDER BY level DESC, xp DESC` ordering on user rows. -/
def lbOrder (a b : UserRow) : Prop :=
  b.level < a.level ∨ (a.level = b.level ∧ b.xp ≤ a.xp)

instance : DecidableRel lbOrder := fun a b => by
  unfold lbOrder; exact inferInstance

instance : IsTotal UserRow lbOrder :=
  ⟨by intro a b; unfold lbOrder; omega⟩

instance : IsTrans UserRow lbOrder :=
  ⟨by intro a b c; unfold lbOrder; omega⟩

/-- `DatabaseManager.get_leaderboard`:
`SELECT username, level, xp FROM users ORDER BY level DESC, xp DESC LIMIT 5`. -/
def get_leaderboard (st : DBState) : List LeaderboardEntry :=
  ((List.insertionSort lbOrder st.users).take 5).map (fun r => ⟨r.username, r.level, r.xp⟩)

/-- `DatabaseManager.get_total_count`: `SELECT COUNT(*) FROM interactions`. -/
def get_total_count (st : DBState) : Nat :=
  st.interactions.length

/-- `DatabaseManager.get_verdict_counts`:
`SELECT verdict, COUNT(*) FROM interactions GROUP BY verdict`, returned as a
dictionary (modelled as an association list with distinct keys, one per
distinct verdict in the log). -/
def get_verdict_counts (st : DBState) : List (String × Nat) :=
  let vs := st.interactions.map (fun r => r.verdict)
  vs.dedup.map (fun v => (v, List.count v vs))

/-- `DatabaseManager.get_hourly_activity`: group the log by the hour substring
of the timestamp, then fill a dictionary keyed "00".."23" (hours with no
events stay 0, group keys outside that range are dropped by the
`if hour in hourly_data` check) and return its values in key order. -/
def get_hourly_activity (st : DBState) : List Nat :=
  (List.range 24).map (fun h => st.interactions.countP (fun r => r.timestamp.hour == h))

/-- Schema-level state for `initialize_db`: each table either absent or
present with its rows. -/
structure SchemaState where
  interactions : Option (List InteractionRow)
  users : Option (List UserRow)
deriving DecidableEq, Repr

/-- `CREATE TABLE IF NOT EXISTS interactions ...`. -/
def createInteractionsIfNotExists (s : SchemaState) : SchemaState :=
  match s.interactions with
  | some _ => s
  | none => { s with interactions := some [] }

/-- `CREATE TABLE IF NOT EXISTS users ...`. -/
def createUsersIfNotExists (s : SchemaState) : SchemaState :=
  match s.users with
  | some _ => s
  | none => { s with users := some [] }

/-- `DatabaseManager.initialize_db`: both `CREATE TABLE IF NOT EXISTS`
statements, in source order. -/
def initialize_db (s : SchemaState) : SchemaState :=
  createUsersIfNotExists (createInteractionsIfNotExists s)

/-- `bot.update_streak`: `UPDATE users SET streak = 0 WHERE discord_id = ?`
when `reset`, else `UPDATE users SET streak = streak + 1 WHERE ...`.
A no-op when no row matches. -/
def update_streak (st : DBState) (user_id : String) (reset : Bool) : DBState :=
  if reset then
    { st with users := st.users.map (fun u =>
        if u.discord_id == user_id then { u with streak := 0 } else u) }
  else
    { st with users := st.users.map (fun u =>
        if u.discord_id == user_id then { u with streak := u.streak + 1 } else u) }

/-- The database portion of the `!oracle` failure path in `bot.on_message`:
`log_interaction`, then `update_streak(reset=True)`, then `update_xp(.., 10)`
(the pity XP).  `tLog` and `tXp` are the two `datetime.now()` readings. -/
def register_failure (st : DBState) (user_id user_name verdict : String)
    (tLog tXp : Timestamp) : DBState × Nat × Nat :=
  let st1 := log_interaction st user_id user_name verdict tLog
  let st2 := update_streak st1 user_id true
  update_xp st2 user_id user_name 10 tXp

/-- The literal punishment list of `ProtocolZero.consult_oracle`. -/
def punishments : List String :=
  ["20 Push-ups",
   "20 Squats",
   "1 Minute Plank",
   "50 Jumping Jacks",
   "30 Lunges",
   "Wall Sit (45 seconds)",
   "Burpees (10 reps)",
   "Cold Shower (30 seconds)",
   "No Music for 1 Hour",
   "Clean your room/desk immediately",
   "Write \x27I am in control\x27 20 times",
   "Drink 1 full glass of water",
   "Code 10 lines of Python",
   "Read 5 pages of a book"]

/-- `ProtocolZero.consult_oracle`: `random.choice(punishments)`; the random
roll is an explicit argument.  (`days_remaining` is computed by the source but
unused; this version of the oracle performs no database access.) -/
def consult_oracle (roll : Nat) : String :=
  punishments.getD (roll % punishments.length) ""

/-- The canned fallback roasts of `api.py`. -/
def BACKUP_ROASTS : List String :=
  ["The AI is offline, but you are still weak.",
   "Even the servers are disappointed in you.",
   "Just do the reps, human."]

/-- The body of `POST /summon` (`api.summon_oracle`): one oracle consultation,
one roast (AI result when available, else `random.choice(BACKUP_ROASTS)`),
and the returned `{verdict, roast}` pair.  The database state is threaded to
record that the endpoint body never touches it. -/
def summon_oracle (st : DBState) (roll : Nat) (aiRoast : Option String)
    (backupRoll : Nat) : DBState × String × String :=
  let verdict := consult_oracle roll
  let roast :=
    match aiRoast with
    | some r => r
    | none => BACKUP_ROASTS.getD (backupRoll % BACKUP_ROASTS.length) ""
  (st, verdict, roast)

/-- Behaviour of the storage backend during one call: either every SQL
round-trip succeeds, or the connection/query raises. -/
inductive Storage
  | ok
  | failing
deriving DecidableEq, Repr

/-- `update_xp` with explicit storage behaviour: the source has no try/except,
so a storage failure propagates to the caller as an exception. -/
def update_xpE (s : Storage) (st : DBState) (user_id user_name : String)
    (xp_amount : Nat) (now : Timestamp) : Except String (DBState × Nat × Nat) :=
  match s with
  | .failing => .error "storage failure"
  | .ok => .ok (update_xp st user_id user_name xp_amount now)

/-- `log_interaction` with explicit storage behaviour: no try/except in the
source, failure propagates. -/
def log_interactionE (s : Storage) (st : DBState) (user_id user_name verdict : String)
    (now : Timestamp) : Except String DBState :=
  match s with
  | .failing => .error "storage failure"
  | .ok => .ok (log_interaction st user_id user_name verdict now)

/-- `get_user_stats` with explicit storage behaviour: no try/except in the
source, failure propagates. -/
def get_user_statsE (s : Storage) (st : DBState) (user_id : String) :
    Except String Stats :=
  match s with
  | .failing => .error "storage failure"
  | .ok => .ok (get_user_stats st user_id)

/-- `bot.update_streak` with explicit storage behaviour: the whole body is
wrapped in try/except, so a storage failure is caught at the point of
occurrence and converted to a logged message; no exception escapes and the
state is unchanged. -/
def update_streakE (s : Storage) (st : DBState) (user_id : String) (reset : Bool) :
    DBState × Option String :=
  match s with
  | .failing => (st, some "[ERROR] Streak Update Failed")
  | .ok => (update_streak st user_id reset, none)

/-- The `try`-wrapped database block of the `!oracle` handler: on any storage
failure inside it the handler logs and continues with
`new_level, current_xp = 0, 0`. -/
def oracle_db_block (s : Storage) (st : DBState) (user_id user_name verdict : String)
    (tLog tXp : Timestamp) : DBState × Nat × Nat :=
  match (do
      let st1 ← log_interactionE s st user_id user_name verdict tLog
      let st2 := (update_streakE s st1 user_id true).1
      update_xpE s st2 user_id user_name 10 tXp :
      Except String (DBState × Nat × Nat)) with
  | .ok r => r
  | .error _ => (st, 0, 0)

/-- The database portion of the `!resist` success path: `update_xp(.., 50)`
and `get_user_stats` are not wrapped in any try/except there, so a storage
failure propagates past the handler; only the intervening `update_streak`
catches its own failure. -/
def resist_handler (s : Storage) (st : DBState) (user_id user_name : String)
    (now : Timestamp) : Except String (DBState × Nat × Nat × Stats) :=
  do
    let r ← update_xpE s st user_id user_name 50 now
    let st2 := (update_streakE s r.1 user_id false).1
    let stats ← get_user_statsE s st2 user_id
    return (st2, r.2.1, r.2.2, stats)

/-- Modelled from the spec (§4.2 step 4): the leveling rule as the spec words
it — "starting from the stored level, while `xp ≥ level × 100`, increment
level by one".  Fuel-based evaluation of that loop; `xp + 1` fuel suffices
since each iteration raises the threshold by at least 100. -/
def specLevelAux : Nat → Nat → Nat → Nat
  | 0, level, _ => level
  | fuel + 1, level, xp => if level * 100 ≤ xp then specLevelAux fuel (level + 1) xp else level

/-- Modelled from the spec: the level demanded by the spec's cumulative
threshold rule, given the stored level and the current xp. -/
def specLevel (level xp : Nat) : Nat :=
  specLevelAux (xp + 1) level xp

/-- A fixed timestamp used by concrete counterexamples and witnesses. -/
def ts1 : Timestamp :=
  ⟨"2026-01-01", 12, "30:00"⟩

/-- A second fixed timestamp, one hour later. -/
def ts2 : Timestamp :=
  ⟨"2026-01-01", 13, "30:00"⟩

/-! ### Helper lemmas about the embedded operations -/

/-- `find?` commutes with a row-wise `UPDATE` that never changes the key
column. -/
theorem find?_map_of_key (f : UserRow → UserRow)
    (hf : ∀ u, (f u).discord_id = u.discord_id) (l : List UserRow) (uid : String) :
    (l.map f).find? (fun r => r.discord_id == uid)
      = Option.map f (l.find? (fun r => r.discord_id == uid)) := by
  induction l with
  | nil => rfl
  | cons a l ih =>
      simp only [List.map_cons, List.find?_cons, hf a]
      cases h : (a.discord_id == uid) <;> simp [h, ih]

/-- `update_xp` on an absent subject: the insert branch. -/
theorem update_xp_none (st : DBState) (uid uname : String) (amount : Nat)
    (now : Timestamp) (h : findUser st.users uid = none) :
    update_xp st uid uname amount now
      = ({ st with users := st.users ++ [⟨uid, uname, amount, 1, 0, now⟩] }, 1, amount) := by
  simp [update_xp, h]

/-- `update_xp` on a present subject: the update branch. -/
theorem update_xp_some (st : DBState) (uid uname : String) (amount : Nat)
    (now : Timestamp) (r : UserRow) (h : findUser st.users uid = some r) :
    update_xp st uid uname amount now
      = ({ st with users := st.users.map (fun u =>
            if u.discord_id == uid then
              { u with xp := r.xp + amount,
                       level := if r.level * 100 ≤ r.xp + amount then r.level + 1 else r.level,
                       last_active := now, username := uname }
            else u) },
         (if r.level * 100 ≤ r.xp + amount then r.level + 1 else r.level),
         r.xp + amount) := by
  simp [update_xp, h]

/-- Stats read after the insert branch of `update_xp`. -/
theorem get_user_stats_after_update_xp_none (st : DBState) (uid uname : String)
    (amount : Nat) (now : Timestamp) (h : findUser st.users uid = none) :
    get_user_stats (update_xp st uid uname amount now).1 uid = ⟨1, amount, 0⟩ := by
  rw [update_xp_none st uid uname amount now h]
  simp only [findUser] at h
  simp [get_user_stats, findUser, List.find?_append, h]

/-- The predicate holds at a row returned by `find?`. -/
theorem beq_of_findUser_some {l : List UserRow} {uid : String} {r : UserRow}
    (h : l.find? (fun x => x.discord_id == uid) = some r) :
    (r.discord_id == uid) = true := by
  have hp := List.find?_some h
  simpa using hp

/-- Stats read after the update branch of `update_xp`. -/
theorem get_user_stats_after_update_xp_some (st : DBState) (uid uname : String)
    (amount : Nat) (now : Timestamp) (r : UserRow) (h : findUser st.users uid = some r) :
    get_user_stats (update_xp st uid uname amount now).1 uid
      = ⟨(if r.level * 100 ≤ r.xp + amount then r.level + 1 else r.level),
         r.xp + amount, r.streak⟩ := by
  rw [update_xp_some st uid uname amount now r h]
  simp only [get_user_stats, findUser]
  rw [find?_map_of_key _ (fun u => by split <;> rfl)]
  simp only [findUser] at h
  rw [h]
  have heq : r.discord_id = uid := by simpa using beq_of_findUser_some h
  simp [heq]

/-- The row found after the update branch of `update_xp`. -/
theorem findUser_after_update_xp_some (st : DBState) (uid uname : String)
    (amount : Nat) (now : Timestamp) (r : UserRow) (h : findUser st.users uid = some r) :
    findUser (update_xp st uid uname amount now).1.users uid
      = some { r with xp := r.xp + amount,
                      level := if r.level * 100 ≤ r.xp + amount then r.level + 1 else r.level,
                      last_active := now, username := uname } := by
  rw [update_xp_some st uid uname amount now r h]
  simp only [findUser]
  rw [find?_map_of_key _ (fun u => by split <;> rfl)]
  simp only [findUser] at h
  rw [h]
  have heq : r.discord_id = uid := by simpa using beq_of_findUser_some h
  simp [heq]

/-- The row found after the insert branch of `update_xp`. -/
theorem findUser_after_update_xp_none (st : DBState) (uid uname : String)
    (amount : Nat) (now : Timestamp) (h : findUser st.users uid = none) :
    findUser (update_xp st uid uname amount now).1.users uid
      = some ⟨uid, uname, amount, 1, 0, now⟩ := by
  rw [update_xp_none st uid uname amount now h]
  simp only [findUser] at h
  simp [findUser, List.find?_append, h]

/-! ### C1 — stored level vs. the cumulative threshold rule -/

/-- C1 counterexample: a subject stored at level 1 with 0 xp is granted 250 xp
in one call.  The spec rule ("while xp ≥ level × 100, increment") demands
level 3, but `update_xp` raises the level by at most one, storing and
returning level 2. -/
theorem c1_counterexample :
    (update_xp ⟨[], [⟨"u1", "Ann", 0, 1, 0, ts1⟩]⟩ "u1" "Ann" 250 ts2).2.1 = 2 ∧
    (get_user_stats (update_xp ⟨[], [⟨"u1", "Ann", 0, 1, 0, ts1⟩]⟩ "u1" "Ann" 250 ts2).1
        "u1").level = 2 ∧
    specLevel 1 250 = 3 ∧
    (get_user_stats (update_xp ⟨[], [⟨"u1", "Ann", 0, 1, 0, ts1⟩]⟩ "u1" "Ann" 250 ts2).1
        "u1").level
      ≠ specLevel 1
          (get_user_stats (update_xp ⟨[], [⟨"u1", "Ann", 0, 1, 0, ts1⟩]⟩ "u1" "Ann" 250 ts2).1
            "u1").xp := by
  decide

/-- C1 amended: after any `update_xp` call, the stored level equals the
returned `new_level`; a call raises the level by at most one — the creating
call always stores level 1 regardless of the granted amount, and an update
sets the level to the old level plus one exactly when the new cumulative xp
reaches `old level × 100`, so a grant crossing several thresholds raises the
level past only the first. -/
theorem c1_level_one_step (st : DBState) (uid uname : String) (amount : Nat)
    (now : Timestamp) :
    (get_user_stats (update_xp st uid uname amount now).1 uid).level
        = (update_xp st uid uname amount now).2.1 ∧
    (get_user_stats st uid).level ≤ (update_xp st uid uname amount now).2.1 ∧
    (update_xp st uid uname amount now).2.1 ≤ (get_user_stats st uid).level + 1 ∧
    (findUser st.users uid = none → (update_xp st uid uname amount now).2.1 = 1) ∧
    (∀ r, findUser st.users uid = some r →
        (update_xp st uid uname amount now).2.1
          = if r.level * 100 ≤ r.xp + amount then r.level + 1 else r.level) := by
  cases h : findUser st.users uid with
  | none =>
      rw [get_user_stats_after_update_xp_none st uid uname amount now h]
      rw [update_xp_none st uid uname amount now h]
      simp [get_user_stats, h]
  | some r =>
      refine ⟨?_, ?_, ?_, ?_, ?_⟩
      · rw [get_user_stats_after_update_xp_some st uid uname amount now r h,
            update_xp_some st uid uname amount now r h]
      · rw [update_xp_some st uid uname amount now r h]
        simp only [get_user_stats, h]
        show r.level ≤ if r.level * 100 ≤ r.xp + amount then r.level + 1 else r.level
        split <;> omega
      · rw [update_xp_some st uid uname amount now r h]
        simp only [get_user_stats, h]
        show (if r.level * 100 ≤ r.xp + amount then r.level + 1 else r.level) ≤ r.level + 1
        split <;> omega
      · intro hc
        cases hc
      · intro r2 h2
        cases h2
        rw [update_xp_some st uid uname amount now r h]

/-- C1 amended, witnessed at a concrete input: a stored row at level 1 with
0 xp granted 250 xp yields returned level 2. -/
theorem c1_level_one_step_witness :
    findUser (⟨[], [⟨"u1", "Ann", 0, 1, 0, ts1⟩]⟩ : DBState).users "u1"
        = some ⟨"u1", "Ann", 0, 1, 0, ts1⟩ ∧
    (update_xp ⟨[], [⟨"u1", "Ann", 0, 1, 0, ts1⟩]⟩ "u1" "Ann" 250 ts2).2.1
        = if (1 : Nat) * 100 ≤ 0 + 250 then 1 + 1 else 1 :=
  ⟨by decide,
   (c1_level_one_step ⟨[], [⟨"u1", "Ann", 0, 1, 0, ts1⟩]⟩ "u1" "Ann" 250 ts2).2.2.2.2
     ⟨"u1", "Ann", 0, 1, 0, ts1⟩ (by decide)⟩

/-! ### C2 — cooldown gate on repeated success grants -/

/-- C2 counterexample: two immediate `update_xp` calls for the same subject.
The claim demands the second call be rejected with xp, level and
`last_active` unchanged; instead the second call grants again — xp goes
50 → 100 and the level changes — so no cooldown gate exists. -/
theorem c2_counterexample :
    (get_user_stats (update_xp (update_xp ⟨[], []⟩ "u1" "Ann" 50 ts1).1
        "u1" "Ann" 50 ts1).1 "u1").xp = 100 ∧
    (get_user_stats (update_xp ⟨[], []⟩ "u1" "Ann" 50 ts1).1 "u1").xp = 50 ∧
    (get_user_stats (update_xp (update_xp ⟨[], []⟩ "u1" "Ann" 50 ts1).1
        "u1" "Ann" 50 ts1).1 "u1").xp
      ≠ (get_user_stats (update_xp ⟨[], []⟩ "u1" "Ann" 50 ts1).1 "u1").xp ∧
    (get_user_stats (update_xp (update_xp ⟨[], []⟩ "u1" "Ann" 50 ts1).1
        "u1" "Ann" 50 ts1).1 "u1").level
      ≠ (get_user_stats (update_xp ⟨[], []⟩ "u1" "Ann" 50 ts1).1 "u1").level := by
  decide

/-- C2 amended: `update_xp` performs no cooldown check at all.  Any call for
an existing subject — however soon after the previous one — adds `xp_amount`
to the stored xp, refreshes `last_active` to the call time, and returns the
new `(new_level, current_xp)`; no rejection result or remaining wait time is
ever produced. -/
theorem c2_no_cooldown (st : DBState) (uid uname : String) (amount : Nat)
    (now : Timestamp) (r : UserRow) (h : findUser st.users uid = some r) :
    (update_xp st uid uname amount now).2.2 = r.xp + amount ∧
    (get_user_stats (update_xp st uid uname amount now).1 uid).xp = r.xp + amount ∧
    Option.map UserRow.last_active (findUser (update_xp st uid uname amount now).1.users uid)
      = some now := by
  refine ⟨?_, ?_, ?_⟩
  · rw [update_xp_some st uid uname amount now r h]
  · rw [get_user_stats_after_update_xp_some st uid uname amount now r h]
  · rw [findUser_after_update_xp_some st uid uname amount now r h]
    rfl

/-- C2 amended, witnessed: the second of two immediate calls adds its 50 xp. -/
theorem c2_no_cooldown_witness :
    findUser (update_xp ⟨[], []⟩ "u1" "Ann" 50 ts1).1.users "u1"
        = some ⟨"u1", "Ann", 50, 1, 0, ts1⟩ ∧
    (update_xp (update_xp ⟨[], []⟩ "u1" "Ann" 50 ts1).1 "u1" "Ann" 50 ts1).2.2 = 50 + 50 :=
  ⟨by decide,
   (c2_no_cooldown (update_xp ⟨[], []⟩ "u1" "Ann" 50 ts1).1 "u1" "Ann" 50 ts1
     ⟨"u1", "Ann", 50, 1, 0, ts1⟩ (by decide)).1⟩

/-! ### C3 — what `POST /summon` actually does -/

/-- C3: the body of `POST /summon` performs one punishment selection and
returns a `{verdict, roast}` pair, but it leaves the database completely
unchanged — no event record is appended and no user row (XP) is touched,
contradicting the endpoint docstring ("it creates/changes data in the
database") and the dashboard flow that reloads to pick up the new totals. -/
theorem c3_summon_no_db_write (st : DBState) (roll backupRoll : Nat)
    (aiRoast : Option String) :
    (summon_oracle st roll aiRoast backupRoll).1 = st ∧
    get_total_count (summon_oracle st roll aiRoast backupRoll).1 = get_total_count st ∧
    (summon_oracle st roll aiRoast backupRoll).1.users = st.users ∧
    (summon_oracle st roll aiRoast backupRoll).2.1 ∈ punishments := by
  refine ⟨rfl, rfl, rfl, ?_⟩
  show consult_oracle roll ∈ punishments
  unfold consult_oracle
  have hlt : roll % punishments.length < punishments.length :=
    Nat.mod_lt _ (by decide)
  rw [List.getD_eq_getElem _ _ hlt]
  exact List.getElem_mem hlt

/-! ### C4 — the `!oracle` failure path -/

/-- `update_xp` never touches the event log. -/
theorem update_xp_interactions (st : DBState) (uid uname : String) (amount : Nat)
    (now : Timestamp) :
    (update_xp st uid uname amount now).1.interactions = st.interactions := by
  cases h : findUser st.users uid with
  | none => rw [update_xp_none st uid uname amount now h]
  | some r => rw [update_xp_some st uid uname amount now r h]

/-- Lookup after the streak-reset `UPDATE`. -/
theorem findUser_update_streak_reset (st : DBState) (uid : String) :
    findUser (update_streak st uid true).users uid
      = Option.map (fun u => if u.discord_id == uid then { u with streak := 0 } else u)
          (findUser st.users uid) :=
  find?_map_of_key _ (fun u => by split <;> rfl) st.users uid

/-- C4: the `!oracle` failure path (`log_interaction`, then
`update_streak(reset=True)`, then `update_xp(.., 10)`) leaves the subject at
streak exactly 0 whatever the prior streak, appends exactly one event record
carrying the chosen verdict, grants the 10 pity XP unconditionally (no
cooldown gate exists anywhere on this path), and returns the
`(new_level, current_xp)` that are actually stored. -/
theorem c4_register_failure (st : DBState) (uid uname verdict : String)
    (t1 t2 : Timestamp) :
    (get_user_stats (register_failure st uid uname verdict t1 t2).1 uid).streak = 0 ∧
    (register_failure st uid uname verdict t1 t2).1.interactions
      = st.interactions ++ [⟨uid, uname, verdict, t1⟩] ∧
    (register_failure st uid uname verdict t1 t2).2.2 = (get_user_stats st uid).xp + 10 ∧
    (register_failure st uid uname verdict t1 t2).2.1
      = (get_user_stats (register_failure st uid uname verdict t1 t2).1 uid).level ∧
    (register_failure st uid uname verdict t1 t2).2.2
      = (get_user_stats (register_failure st uid uname verdict t1 t2).1 uid).xp := by
  simp only [register_failure]
  have hmid : findUser (update_streak (log_interaction st uid uname verdict t1) uid true).users uid
      = Option.map (fun u => if u.discord_id == uid then { u with streak := 0 } else u)
          (findUser st.users uid) :=
    findUser_update_streak_reset (log_interaction st uid uname verdict t1) uid
  have hint : (update_streak (log_interaction st uid uname verdict t1) uid true).interactions
      = st.interactions ++ [⟨uid, uname, verdict, t1⟩] := rfl
  cases h : findUser st.users uid with
  | none =>
      have hnone : findUser
          (update_streak (log_interaction st uid uname verdict t1) uid true).users uid
          = none := by
        rw [hmid, h]; rfl
      have hstats := get_user_stats_after_update_xp_none _ uid uname 10 t2 hnone
      have hval := update_xp_none _ uid uname 10 t2 hnone
      rw [hstats, hval]
      refine ⟨rfl, hint, ?_, rfl, rfl⟩
      simp [get_user_stats, h]
  | some r =>
      have h' := h
      simp only [findUser] at h'
      have heq : r.discord_id = uid := by simpa using beq_of_findUser_some h'
      have hsome : findUser
          (update_streak (log_interaction st uid uname verdict t1) uid true).users uid
          = some { r with streak := 0 } := by
        rw [hmid, h]
        simp [heq]
      have hstats := get_user_stats_after_update_xp_some _ uid uname 10 t2 _ hsome
      have hval := update_xp_some _ uid uname 10 t2 _ hsome
      rw [hstats, hval]
      refine ⟨rfl, hint, ?_, rfl, rfl⟩
      simp [get_user_stats, h]

/-! ### C5 — propagation of storage failures -/

/-- C5 counterexample: a storage failure inside the XP-grant operation is not
caught at the point of occurrence — `update_xp` has no try/except, so the
exception propagates to the caller, and on the `!resist` success path it
escapes past the handler as well. -/
theorem c5_counterexample :
    update_xpE Storage.failing ⟨[], []⟩ "u1" "Ann" 50 ts1
        = Except.error "storage failure" ∧
    resist_handler Storage.failing ⟨[], []⟩ "u1" "Ann" ts1
        = Except.error "storage failure" :=
  ⟨rfl, rfl⟩

/-- C5 amended: only `bot.update_streak` converts a storage failure to a
logged message at the point of occurrence (state unchanged, nothing raised);
`update_xp`, `log_interaction` and `get_user_stats` propagate the exception
to their caller.  The `!oracle` failure handler catches around its whole
database block and degrades to `(0, 0)`, while the `!resist` success path
lets the exception escape the handler. -/
theorem c5_failure_propagation (st : DBState) (uid uname verdict : String)
    (t1 t2 : Timestamp) :
    update_streakE Storage.failing st uid true
        = (st, some "[ERROR] Streak Update Failed") ∧
    update_xpE Storage.failing st uid uname 10 t2 = Except.error "storage failure" ∧
    log_interactionE Storage.failing st uid uname verdict t1
        = Except.error "storage failure" ∧
    get_user_statsE Storage.failing st uid = Except.error "storage failure" ∧
    oracle_db_block Storage.failing st uid uname verdict t1 t2 = (st, 0, 0) ∧
    resist_handler Storage.failing st uid uname t2 = Except.error "storage failure" :=
  ⟨rfl, rfl, rfl, rfl, rfl, rfl⟩

/-! ### C6 — stats read for a never-seen subject -/

/-- C6: `get_user_stats` for an id with no row returns exactly
`{level: 1, xp: 0, streak: 0}`, and — the read being pure, it creates no
row — every leaderboard entry still comes from an existing row whose id is
not that subject, so the subject cannot appear on the leaderboard. -/
theorem c6_stats_default (st : DBState) (uid : String)
    (h : findUser st.users uid = none) :
    get_user_stats st uid = ⟨1, 0, 0⟩ ∧
    ∀ e ∈ get_leaderboard st, ∃ r, r ∈ st.users ∧ r.discord_id ≠ uid ∧
        e = ⟨r.username, r.level, r.xp⟩ := by
  constructor
  · simp [get_user_stats, h]
  · intro e he
    simp only [get_leaderboard, List.mem_map] at he
    obtain ⟨r, hr, hre⟩ := he
    have hr2 : r ∈ List.insertionSort lbOrder st.users :=
      List.mem_of_mem_take hr
    have hr3 : r ∈ st.users := (List.perm_insertionSort lbOrder st.users).mem_iff.mp hr2
    refine ⟨r, hr3, ?_, hre.symm⟩
    simp only [findUser] at h
    have := List.find?_eq_none.mp h r hr3
    simpa using this

/-- C6 witnessed at a concrete state: one stored subject `"a"`, queried id
`"b"` absent. -/
theorem c6_stats_default_witness :
    findUser (⟨[], [⟨"a", "A", 150, 2, 0, ts1⟩]⟩ : DBState).users "b" = none ∧
    get_user_stats ⟨[], [⟨"a", "A", 150, 2, 0, ts1⟩]⟩ "b" = ⟨1, 0, 0⟩ :=
  ⟨by decide,
   (c6_stats_default ⟨[], [⟨"a", "A", 150, 2, 0, ts1⟩]⟩ "b" (by decide)).1⟩

/-! ### C7 — hourly activity histogram -/

/-- Sums distribute pointwise over a mapped list. -/
theorem sum_map_add_nat {α : Type} (l : List α) (f g : α → Nat) :
    (l.map (fun x => f x + g x)).sum = (l.map f).sum + (l.map g).sum := by
  induction l with
  | nil => rfl
  | cons a l ih =>
      simp only [List.map_cons, List.sum_cons, ih]
      omega

/-- An indicator over `range n` sums to 0 when the hit is out of range. -/
theorem sum_indicator_ge (k : Nat) : ∀ n, n ≤ k →
    ((List.range n).map (fun j => if k = j then 1 else 0)).sum = 0 := by
  intro n
  induction n with
  | zero => intro _; rfl
  | succ n ih =>
      intro hn
      rw [List.range_succ, List.map_append, List.sum_append, ih (by omega)]
      simp only [List.map_cons, List.map_nil, List.sum_cons, List.sum_nil]
      rw [if_neg (by omega)]
      omega

/-- An indicator over `range n` sums to 1 when the hit is in range. -/
theorem sum_indicator_lt (k : Nat) : ∀ n, k < n →
    ((List.range n).map (fun j => if k = j then 1 else 0)).sum = 1 := by
  intro n
  induction n with
  | zero => intro hn; omega
  | succ n ih =>
      intro hn
      rw [List.range_succ, List.map_append, List.sum_append]
      by_cases hk : k = n
      · subst hk
        rw [sum_indicator_ge k k (Nat.le_refl k)]
        simp
      · rw [ih (by omega)]
        simp only [List.map_cons, List.map_nil, List.sum_cons, List.sum_nil]
        rw [if_neg hk]
        omega

/-- Per-hour counts sum to the log length when every hour is in 0..23. -/
theorem hourly_sum (l : List InteractionRow)
    (h : ∀ e ∈ l, e.timestamp.hour < 24) :
    ((List.range 24).map (fun k => l.countP (fun r => r.timestamp.hour == k))).sum
      = l.length := by
  induction l with
  | nil => simp
  | cons a l ih =>
      have ha : a.timestamp.hour < 24 := h a (List.mem_cons_self a l)
      have hl : ∀ e ∈ l, e.timestamp.hour < 24 := fun e he => h e (List.mem_cons_of_mem a he)
      simp only [List.countP_cons, List.length_cons]
      rw [sum_map_add_nat, ih hl]
      have hone : ((List.range 24).map
          (fun k => if (a.timestamp.hour == k) = true then 1 else 0)).sum = 1 := by
        simpa using sum_indicator_lt a.timestamp.hour 24 ha
      omega

/-- C7: `get_hourly_activity` always yields exactly 24 entries in hour order
(the entry at index `k` counts the events whose hour is `k`, so silent hours
appear as 0), and — since every stored timestamp carries an hour in 0..23 —
the 24 entries sum to `get_total_count`. -/
theorem c7_hourly_activity (st : DBState)
    (h : ∀ e ∈ st.interactions, e.timestamp.hour < 24) :
    (get_hourly_activity st).length = 24 ∧
    (∀ k, k < 24 → (get_hourly_activity st)[k]?
        = some (st.interactions.countP (fun r => r.timestamp.hour == k))) ∧
    (get_hourly_activity st).sum = get_total_count st := by
  refine ⟨by simp [get_hourly_activity], ?_, ?_⟩
  · intro k hk
    simp [get_hourly_activity, List.getElem?_map, List.getElem?_range hk]
  · exact hourly_sum st.interactions h

/-- C7 witnessed at a concrete two-event log. -/
theorem c7_hourly_activity_witness :
    (∀ e ∈ (⟨[⟨"u", "U", "v", ts1⟩, ⟨"u", "U", "w", ts2⟩], []⟩ : DBState).interactions,
        e.timestamp.hour < 24) ∧
    (get_hourly_activity ⟨[⟨"u", "U", "v", ts1⟩, ⟨"u", "U", "w", ts2⟩], []⟩).sum
      = get_total_count ⟨[⟨"u", "U", "v", ts1⟩, ⟨"u", "U", "w", ts2⟩], []⟩ :=
  ⟨by decide,
   (c7_hourly_activity ⟨[⟨"u", "U", "v", ts1⟩, ⟨"u", "U", "w", ts2⟩], []⟩ (by decide)).2.2⟩

/-! ### C8 — leaderboard ordering -/

/-- The `(level desc, xp desc)` ordering transported to leaderboard entries. -/
def lbEntryOrder (a b : LeaderboardEntry) : Prop :=
  b.level < a.level ∨ (a.level = b.level ∧ b.xp ≤ a.xp)

/-- C8: `get_leaderboard` returns the top 5 subjects: its length is exactly
`min 5 |users|` (every subject appears while the table holds at most 5), the
entries are pairwise ordered by level descending with ties broken by xp
descending, each entry carries the username, level and xp of an actual
subject row, and no omitted row outranks a returned entry — every subject row
either appears in the result or is ranked at-or-below every returned entry. -/
theorem c8_leaderboard (st : DBState) :
    (get_leaderboard st).length = min 5 st.users.length ∧
    (get_leaderboard st).length ≤ 5 ∧
    List.Pairwise lbEntryOrder (get_leaderboard st) ∧
    (∀ e ∈ get_leaderboard st, ∃ r, r ∈ st.users ∧ e = ⟨r.username, r.level, r.xp⟩) ∧
    (∀ r ∈ st.users, (⟨r.username, r.level, r.xp⟩ : LeaderboardEntry) ∈ get_leaderboard st ∨
        ∀ e ∈ get_leaderboard st, lbEntryOrder e ⟨r.username, r.level, r.xp⟩) := by
  refine ⟨?_, ?_, ?_, ?_, ?_⟩
  · simp only [get_leaderboard, List.length_map, List.length_take]
    rw [(List.perm_insertionSort lbOrder st.users).length_eq]
  · simp only [get_leaderboard, List.length_map, List.length_take]
    exact min_le_left _ _
  · have hs : List.Pairwise lbOrder (List.insertionSort lbOrder st.users) :=
      List.sorted_insertionSort lbOrder st.users
    have ht : List.Pairwise lbOrder ((List.insertionSort lbOrder st.users).take 5) :=
      List.Pairwise.sublist (List.take_sublist 5 _) hs
    exact List.pairwise_map.mpr (ht.imp (fun hab => hab))
  · intro e he
    simp only [get_leaderboard, List.mem_map] at he
    obtain ⟨r, hr, hre⟩ := he
    exact ⟨r, (List.perm_insertionSort lbOrder st.users).mem_iff.mp
                (List.mem_of_mem_take hr), hre.symm⟩
  · intro r hr
    have hr2 : r ∈ List.insertionSort lbOrder st.users :=
      (List.perm_insertionSort lbOrder st.users).mem_iff.mpr hr
    rw [← List.take_append_drop 5 (List.insertionSort lbOrder st.users)] at hr2
    rcases List.mem_append.mp hr2 with htake | hdrop
    · exact Or.inl (List.mem_map.mpr ⟨r, htake, rfl⟩)
    · refine Or.inr (fun e he => ?_)
      obtain ⟨t, ht, hte⟩ := List.mem_map.mp he
      have hsorted : List.Pairwise lbOrder (List.insertionSort lbOrder st.users) :=
        List.sorted_insertionSort lbOrder st.users
      rw [← List.take_append_drop 5 (List.insertionSort lbOrder st.users)] at hsorted
      have hdom := (List.pairwise_append.mp hsorted).2.2 t ht r hdrop
      rw [← hte]
      exact hdom

/-- C8 witnessed at a concrete two-subject table: the top entry is returned
and traces back to its row. -/
theorem c8_leaderboard_witness :
    ((⟨"A", 2, 150⟩ : LeaderboardEntry)
        ∈ get_leaderboard ⟨[], [⟨"b", "B", 50, 1, 0, ts1⟩, ⟨"a", "A", 150, 2, 0, ts1⟩]⟩) ∧
    (∃ r, r ∈ (⟨[], [⟨"b", "B", 50, 1, 0, ts1⟩, ⟨"a", "A", 150, 2, 0, ts1⟩]⟩ : DBState).users ∧
        (⟨"A", 2, 150⟩ : LeaderboardEntry) = ⟨r.username, r.level, r.xp⟩) :=
  ⟨by decide,
   (c8_leaderboard ⟨[], [⟨"b", "B", 50, 1, 0, ts1⟩, ⟨"a", "A", 150, 2, 0, ts1⟩]⟩).2.2.2.1
     ⟨"A", 2, 150⟩ (by decide)⟩

/-! ### C9 — idempotent schema initialization -/

/-- C9: `initialize_db` is idempotent, always leaves both tables present, and
changes nothing when both tables already exist. -/
theorem c9_initialize_db (s : SchemaState) :
    initialize_db (initialize_db s) = initialize_db s ∧
    (initialize_db s).interactions.isSome = true ∧
    (initialize_db s).users.isSome = true ∧
    (s.interactions.isSome = true → s.users.isSome = true → initialize_db s = s) := by
  obtain ⟨i, u⟩ := s
  cases i <;> cases u <;>
    simp [initialize_db, createInteractionsIfNotExists, createUsersIfNotExists]

/-- C9 witnessed: a schema with both tables present is left untouched. -/
theorem c9_initialize_db_witness :
    ((⟨some [], some []⟩ : SchemaState).interactions.isSome = true) ∧
    initialize_db ⟨some [], some []⟩ = ⟨some [], some []⟩ :=
  ⟨by decide, (c9_initialize_db ⟨some [], some []⟩).2.2.2 (by decide) (by decide)⟩

/-! ### C10 — verdict histogram -/

/-- C10: every count in `get_verdict_counts` is at least 1, the counts sum
to `get_total_count`, and every verdict occurring in the log appears as a
key. -/
theorem c10_verdict_counts (st : DBState) :
    (∀ p ∈ get_verdict_counts st, 1 ≤ p.2) ∧
    ((get_verdict_counts st).map Prod.snd).sum = get_total_count st ∧
    (∀ e ∈ st.interactions, ∃ p ∈ get_verdict_counts st, p.1 = e.verdict) := by
  refine ⟨?_, ?_, ?_⟩
  · intro p hp
    simp only [get_verdict_counts, List.mem_map] at hp
    obtain ⟨v, hv, hvp⟩ := hp
    have hv2 : v ∈ st.interactions.map (fun r => r.verdict) := List.mem_dedup.mp hv
    have hpos : 0 < List.count v (st.interactions.map (fun r => r.verdict)) :=
      List.count_pos_iff.mpr hv2
    rw [← hvp]
    simpa using hpos
  · simp only [get_verdict_counts, List.map_map]
    have hsum := List.sum_map_count_dedup_eq_length (st.interactions.map (fun r => r.verdict))
    simpa [Function.comp, get_total_count] using hsum
  · intro e he
    have hv : e.verdict ∈ st.interactions.map (fun r => r.verdict) :=
      List.mem_map.mpr ⟨e, he, rfl⟩
    exact ⟨(e.verdict, List.count e.verdict (st.interactions.map (fun r => r.verdict))),
           List.mem_map.mpr ⟨e.verdict, List.mem_dedup.mpr hv, rfl⟩, rfl⟩

/-- C10 witnessed at a concrete three-event log. -/
theorem c10_verdict_counts_witness :
    (("v", 2) ∈ get_verdict_counts
        ⟨[⟨"u", "U", "v", ts1⟩, ⟨"u", "U", "v", ts1⟩, ⟨"u", "U", "w", ts2⟩], []⟩) ∧
    1 ≤ (("v", 2) : String × Nat).2 :=
  ⟨by decide,
   (c10_verdict_counts
      ⟨[⟨"u", "U", "v", ts1⟩, ⟨"u", "U", "v", ts1⟩, ⟨"u", "U", "w", ts2⟩], []⟩).1
     ("v", 2) (by decide)⟩
